import Mathlib

/-!
Verification of the frontapp-cli error taxonomy, formatter, resource-identifier
validation, exit-code mapping, and circuit breaker, as a shallow embedding of
the Go sources (internal/errfmt/errfmt.go and internal/api).  Machine integers
are modelled as Int; Go errors as a closed inductive type whose wrapping
structure mirrors errors.As / errors.Is traversal through Unwrap.
-/

namespace Frontcli

/-- APIError mirrors api.APIError: a generic HTTP error carrying status code,
message, detail text, and an optional requested ID plus expected-resource hint
used by the 404 cross-check. -/
structure APIError where
  StatusCode : Int
  Message : String
  Details : String
  RequestedID : String
  ExpectedResource : String
  deriving DecidableEq, Repr

/-- WrongResourceTypeError mirrors api.WrongResourceTypeError. -/
structure WrongResourceTypeError where
  ExpectedType : String
  ActualType : String
  ID : String
  deriving DecidableEq, Repr

/-- RateLimitError mirrors api.RateLimitError; RetryAfter is in seconds. -/
structure RateLimitError where
  RetryAfter : Int
  deriving DecidableEq, Repr

/-- NotFoundError mirrors api.NotFoundError. -/
structure NotFoundError where
  Resource : String
  ID : String
  deriving DecidableEq, Repr

/-- A Go error value as the errfmt formatter can receive one: the typed errors
of package api, the not-authenticated sentinel, a %w-wrapped error (as built by
fmt.Errorf with a message prefix), and an arbitrary plain error.  authError
models api.AuthError, whose Unwrap returns its cause. -/
inductive GoError where
  | wrongResourceType (e : WrongResourceTypeError)
  | apiError (e : APIError)
  | authError (cause : GoError)
  | rateLimit (e : RateLimitError)
  | circuitBreaker
  | notFound (e : NotFoundError)
  | notAuthenticated
  | wrapped (pre : String) (cause : GoError)
  | plainError (msg : String)
  deriving DecidableEq, Repr

/-- The Error() method of api.APIError. -/
def APIError.Error (e : APIError) : String :=
  if e.Details ≠ "" then e.Message ++ ": " ++ e.Details else e.Message

/-- The Error() method of api.WrongResourceTypeError. -/
def WrongResourceTypeError.Error (e : WrongResourceTypeError) : String :=
  "'" ++ e.ID ++ "' is a " ++ e.ActualType ++ " ID, but a " ++ e.ExpectedType
    ++ " ID was expected"

/-- The Error() method of api.RateLimitError. -/
def RateLimitError.Error (e : RateLimitError) : String :=
  if 0 < e.RetryAfter then
    "rate limit exceeded, retry after " ++ toString e.RetryAfter ++ " seconds"
  else
    "rate limit exceeded"

/-- The Error() method of api.NotFoundError. -/
def NotFoundError.Error (e : NotFoundError) : String :=
  if e.ID ≠ "" then e.Resource ++ " '" ++ e.ID ++ "' not found"
  else e.Resource ++ " not found"

/-- The Error() method of a Go error value: what fmt's %v renders. -/
def GoError.errorMessage : GoError → String
  | .wrongResourceType e => e.Error
  | .apiError e => e.Error
  | .authError cause => "authentication error: " ++ cause.errorMessage
  | .rateLimit e => e.Error
  | .circuitBreaker => "circuit breaker is open: too many consecutive failures"
  | .notFound e => e.Error
  | .notAuthenticated => "not authenticated"
  | .wrapped pre cause => pre ++ cause.errorMessage
  | .plainError msg => msg

/-- errors.As with target *api.WrongResourceTypeError: walks the Unwrap chain
(api.AuthError and fmt %w wrappers unwrap; nothing else does). -/
def errAsWrongResourceType : GoError → Option WrongResourceTypeError
  | .wrongResourceType e => some e
  | .authError cause => errAsWrongResourceType cause
  | .wrapped _ cause => errAsWrongResourceType cause
  | _ => none

/-- errors.As with target *api.APIError. -/
def errAsAPIError : GoError → Option APIError
  | .apiError e => some e
  | .authError cause => errAsAPIError cause
  | .wrapped _ cause => errAsAPIError cause
  | _ => none

/-- errors.As with target *api.AuthError; returns the matched AuthError's
cause field (the whole of its observable data). -/
def errAsAuthError : GoError → Option GoError
  | .authError cause => some cause
  | .wrapped _ cause => errAsAuthError cause
  | _ => none

/-- errors.As with target *api.RateLimitError. -/
def errAsRateLimit : GoError → Option RateLimitError
  | .rateLimit e => some e
  | .authError cause => errAsRateLimit cause
  | .wrapped _ cause => errAsRateLimit cause
  | _ => none

/-- errors.As with target *api.CircuitBreakerError. -/
def errAsCircuitBreaker : GoError → Option Unit
  | .circuitBreaker => some ()
  | .authError cause => errAsCircuitBreaker cause
  | .wrapped _ cause => errAsCircuitBreaker cause
  | _ => none

/-- errors.Is against the auth.ErrNotAuthenticated sentinel. -/
def errIsNotAuthenticated : GoError → Bool
  | .notAuthenticated => true
  | .authError cause => errIsNotAuthenticated cause
  | .wrapped _ cause => errIsNotAuthenticated cause
  | _ => false

/-- Modelled from the spec: the implementation of api.ExtractPrefix is not in
the staged sources (only its tests are).  Per spec §4.1 it returns the leading
xxx_ segment only if the 4th character is the separator and the total length
exceeds a minimum (the prefix plus a non-empty body), else the empty string. -/
def ExtractPrefix (id : String) : String :=
  let cs := id.data
  if 4 < cs.length ∧ cs.getD 3 ' ' = '_' then String.mk (cs.take 4) else ""

/-- Modelled from the spec: the static prefix → resource-kind table of §3 and
§4.1 (cnv_, msg_, cmt_, tea_, tag_ named there, plus the contact, inbox and
channel kinds; ctc_ for contact appears in the repository's tests).  Unknown
prefixes map to the empty string. -/
def resourceKindOf (p : String) : String :=
  if p = "cnv_" then "conversation"
  else if p = "msg_" then "message"
  else if p = "cmt_" then "comment"
  else if p = "ctc_" then "contact"
  else if p = "tea_" then "teammate"
  else if p = "tag_" then "tag"
  else if p = "inb_" then "inbox"
  else if p = "cha_" then "channel"
  else ""

/-- Modelled from the spec: api.GetResourceType (implementation not staged)
maps the result of ExtractPrefix through the static prefix table; empty for
unknown prefixes or malformed input. -/
def GetResourceType (id : String) : String :=
  resourceKindOf ( ExtractPrefix id)

/-- Modelled from the spec: api.ValidateIDPrefix (implementation not staged).
Per spec §4.1 it succeeds when the actual prefix matches the expected one or is
unknown/malformed, and fails with a WrongResourceTypeError (carrying the
offending ID, the expected kind name and the actual kind name) exactly when the
actual prefix is valid, known and differs from the expected one. -/
def ValidateIDPrefix (id expectedPfx : String) : Option WrongResourceTypeError :=
  let actualPfx := ExtractPrefix id
  if actualPfx = "" then none
  else if actualPfx = expectedPfx then none
  else
    let actualType := resourceKindOf actualPfx
    if actualType = "" then none
    else some ⟨resourceKindOf expectedPfx, actualType, id⟩

/-- errfmt.getSuggestionForResource: the CLI command suggestion for a kind. -/
def getSuggestionForResource (resourceType id : String) : String :=
  if resourceType = "conversation" then "frontcli conv get " ++ id
  else if resourceType = "message" then "frontcli messages get " ++ id
  else if resourceType = "comment" then "frontcli comments get " ++ id
  else if resourceType = "contact" then "frontcli contacts get " ++ id
  else if resourceType = "teammate" then "frontcli teammates get " ++ id
  else if resourceType = "tag" then "frontcli tags get " ++ id
  else if resourceType = "inbox" then "frontcli inboxes get " ++ id
  else if resourceType = "channel" then "frontcli channels get " ++ id
  else ""

/-- errfmt.getWrongIDTypeHint: the hint emitted when the requested ID has a
known kind different from the expected resource, else the empty string. -/
def getWrongIDTypeHint (id expectedResource : String) : String :=
  let actualType := GetResourceType id
  if actualType = "" ∨ actualType = expectedResource then ""
  else
    "  '" ++ id ++ "' is a " ++ actualType ++ " ID, but a " ++ expectedResource
        ++ " ID was expected.\n\n"
      ++ (let s := getSuggestionForResource actualType id
          if s ≠ "" then "  Try: " ++ s ++ "\n" else "")

/-- The title-plus-explanation part of errfmt.formatWrongResourceTypeError,
before the optional Try line. -/
def formatWrongResourceTypeErrorBase (e : WrongResourceTypeError) : String :=
  "Error: Wrong ID type\n\n"
    ++ "  '" ++ e.ID ++ "' is a " ++ e.ActualType ++ " ID, but a "
    ++ e.ExpectedType ++ " ID was expected.\n\n"

/-- errfmt.formatWrongResourceTypeError. -/
def formatWrongResourceTypeError (e : WrongResourceTypeError) : String :=
  formatWrongResourceTypeErrorBase e
    ++ (let s := getSuggestionForResource e.ActualType e.ID
        if s ≠ "" then "  Try: " ++ s ++ "\n" else "")

/-- The part of errfmt.formatAPIError's 404 arm written before the cross-check:
the title line, then the details paragraph when Details is non-empty. -/
def notFound404Header (e : APIError) : String :=
  "Error: Not found (404)\n\n"
    ++ (if e.Details ≠ "" then "  " ++ e.Details ++ "\n\n" else "")

/-- errfmt.formatAPIError: renders an api.APIError by status code; the 404 arm
cross-checks the requested ID's locally known kind against the expected
resource and, on a mismatch, emits the wrong-type hint instead of the generic
not-found line. -/
def formatAPIError (e : APIError) : String :=
  if e.StatusCode = 401 then
    "Error: Not authenticated\n\n"
      ++ "  Run 'frontcli auth login' to authenticate with Front.\n"
  else if e.StatusCode = 403 then
    "Error: Access denied (403)\n\n"
      ++ "  You don't have permission to perform this action.\n"
      ++ "  Check your account permissions in Front.\n"
  else if e.StatusCode = 404 then
    if e.RequestedID ≠ "" ∧ e.ExpectedResource ≠ ""
        ∧ getWrongIDTypeHint e.RequestedID e.ExpectedResource ≠ "" then
      notFound404Header e ++ getWrongIDTypeHint e.RequestedID e.ExpectedResource
    else
      notFound404Header e ++ "  The resource doesn't exist or you don't have access.\n"
  else if e.StatusCode = 429 then
    "Error: Rate limit exceeded (429)\n\n"
      ++ "  You've hit Front's API rate limit.\n"
      ++ "  Tip: Use --limit flag to reduce result set size.\n"
  else
    "Error: " ++ e.Message ++ " (" ++ toString e.StatusCode ++ ")\n"
      ++ (if e.Details ≠ "" then "\n  " ++ e.Details ++ "\n" else "")

/-- errfmt.formatAuthError, applied to the matched AuthError's cause. -/
def formatAuthError (cause : GoError) : String :=
  "Error: Authentication failed\n\n"
    ++ "  " ++ cause.errorMessage ++ "\n\n"
    ++ "  Try running 'frontcli auth login' to re-authenticate.\n"

/-- errfmt.formatRateLimitError. -/
def formatRateLimitError (e : RateLimitError) : String :=
  "Error: Rate limit exceeded\n\n"
    ++ (if 0 < e.RetryAfter then
          "  Retry after " ++ toString e.RetryAfter ++ " seconds.\n"
        else "")
    ++ "  Tip: Use --limit flag to reduce result set size.\n"

/-- errfmt.formatCircuitBreakerError. -/
def formatCircuitBreakerError : String :=
  "Error: Service temporarily unavailable\n\n"
    ++ "  Too many consecutive failures. Please wait and try again.\n"

/-- errfmt.formatNotAuthenticatedError. -/
def formatNotAuthenticatedError : String :=
  "Error: Not authenticated\n\n"
    ++ "  Run 'frontcli auth login' to authenticate with Front.\n\n"
    ++ "  If you need to set up OAuth credentials first:\n"
    ++ "    frontcli auth setup <client_id>\n"

/-- errfmt.Format: nil maps to the empty string; otherwise the errors.As /
errors.Is checks run in the source's order, first match winning. -/
def Format : Option GoError → String
  | none => ""
  | some err =>
    match errAsWrongResourceType err with
    | some e => formatWrongResourceTypeError e
    | none =>
      match errAsAPIError err with
      | some e => formatAPIError e
      | none =>
        match errAsAuthError err with
        | some cause => formatAuthError cause
        | none =>
          match errAsRateLimit err with
          | some e => formatRateLimitError e
          | none =>
            match errAsCircuitBreaker err with
            | some _ => formatCircuitBreakerError
            | none =>
              if errIsNotAuthenticated err then formatNotAuthenticatedError
              else "Error: " ++ err.errorMessage

/-- needle occurs as a contiguous substring of hay (Go strings.Contains). -/
def StrContains (needle hay : String) : Prop := needle.data <:+: hay.data

instance (n h : String) : Decidable (StrContains n h) :=
  List.decidableInfix n.data h.data

theorem strContains_self (s : String) : StrContains s s := ⟨[], [], by simp⟩

theorem StrContains.extendRight {n a : String} (b : String) (h : StrContains n a) :
    StrContains n (a ++ b) := by
  obtain ⟨s, t, hst⟩ := h
  exact ⟨s, t ++ b.data, by rw [String.data_append, ← hst]; simp⟩

theorem StrContains.extendLeft {n b : String} (a : String) (h : StrContains n b) :
    StrContains n (a ++ b) := by
  obtain ⟨s, t, hst⟩ := h
  exact ⟨a.data ++ s, t, by rw [String.data_append, ← hst]; simp⟩

/-- A whole right chunk is contained in an append. -/
theorem strContains_append_self (a n : String) : StrContains n (a ++ n) :=
  (strContains_self n).extendLeft a

/-- A string whose left part is a non-empty literal is non-empty. -/
theorem append_ne_empty_left {a : String} (b : String) (ha : a.data ≠ []) :
    a ++ b ≠ "" := by
  intro hc
  apply ha
  have : (a ++ b).data = [] := by rw [hc]
  rw [String.data_append] at this
  exact (List.append_eq_nil.mp this).1

/-- One taxonomy branch of the formatter: a matcher that yields the branch's
rendering when the error matches its kind. -/
def branchWrongResourceType (e : GoError) : Option String :=
  (errAsWrongResourceType e).map formatWrongResourceTypeError

/-- The generic HTTPError branch. -/
def branchHTTPError (e : GoError) : Option String :=
  (errAsAPIError e).map formatAPIError

/-- The AuthError-by-type branch. -/
def branchAuthError (e : GoError) : Option String :=
  (errAsAuthError e).map formatAuthError

/-- The RateLimitError branch. -/
def branchRateLimit (e : GoError) : Option String :=
  (errAsRateLimit e).map formatRateLimitError

/-- The circuit-open branch. -/
def branchCircuitOpen (e : GoError) : Option String :=
  (errAsCircuitBreaker e).map (fun _ => formatCircuitBreakerError)

/-- The not-authenticated sentinel branch. -/
def branchNotAuthenticated (e : GoError) : Option String :=
  if errIsNotAuthenticated e then some formatNotAuthenticatedError else none

/-- The fallback rendering. -/
def fallbackFormat (e : GoError) : String := "Error: " ++ e.errorMessage

/-- First-match dispatch over an ordered list of taxonomy branches: the first
branch that matches renders the error; an error matching an earlier branch is
never rendered by a later one. -/
def dispatchFirst : List (GoError → Option String) → (GoError → String) → GoError → String
  | [], fallback, e => fallback e
  | b :: bs, fallback, e =>
    match b e with
    | some s => s
    | none => dispatchFirst bs fallback e

/-- The dispatch order the source's Format actually uses:
WrongResourceTypeError, then generic HTTPError (api.APIError), then AuthError,
then RateLimitError, then circuit-open, then the not-authenticated sentinel,
then the fallback. -/
def FormatSourceOrder (e : GoError) : String :=
  dispatchFirst
    [branchWrongResourceType, branchHTTPError, branchAuthError,
     branchRateLimit, branchCircuitOpen, branchNotAuthenticated]
    fallbackFormat e

/-- The dispatch order as the spec's claim states it: WrongResourceTypeError,
then AuthError, then RateLimitError, then circuit-open, then the
not-authenticated sentinel, then generic HTTPError, then the fallback.  Written
from the claim's words, to be compared with Format. -/
def FormatClaimOrder (e : GoError) : String :=
  dispatchFirst
    [branchWrongResourceType, branchAuthError, branchRateLimit,
     branchCircuitOpen, branchNotAuthenticated, branchHTTPError]
    fallbackFormat e

/-- Modelled from the spec: the circuit breaker's configuration (§4.5: a
configurable consecutive-failure threshold and a cool-down duration); the
breaker implementation is not among the staged sources. -/
structure BreakerConfig where
  threshold : Nat
  cooldown : Nat
  deriving DecidableEq, Repr

/-- Modelled from the spec: CircuitBreakerState of §3,
\x7bconsecutiveFailures, open, openedAt\x7d; the field open is named isOpen
because open is a Lean keyword. -/
structure BreakerState where
  consecutiveFailures : Nat
  isOpen : Bool
  openedAt : Nat
  deriving DecidableEq, Repr

/-- What one call through the breaker did: rejected fast with
CircuitBreakerError and no transport attempt, or executed the transport call
with the given outcome. -/
inductive CallResult where
  | circuitOpen
  | executed (ok : Bool)
  deriving DecidableEq, Repr

/-- Modelled from the spec (§4.5, §8): one call through the circuit breaker at
time now whose transport call, were it attempted, would succeed iff
transportOK.  While open and before the cool-down elapses every call is
rejected fast without a transport attempt; once the cool-down has elapsed a
single trial call runs (half-open): its success resets the failure counter and
closes the breaker, its failure re-opens the breaker and restarts the
cool-down timer.  While closed, a success resets the counter and a failure
increments it, opening the breaker when the threshold is reached. -/
def breakerCall (cfg : BreakerConfig) (s : BreakerState) (now : Nat)
    (transportOK : Bool) : CallResult × BreakerState :=
  if s.isOpen ∧ now < s.openedAt + cfg.cooldown then
    (.circuitOpen, s)
  else if transportOK then
    (.executed true, ⟨0, false, s.openedAt⟩)
  else if s.isOpen then
    (.executed false, ⟨s.consecutiveFailures, true, now⟩)
  else if cfg.threshold ≤ s.consecutiveFailures + 1 then
    (.executed false, ⟨s.consecutiveFailures + 1, true, now⟩)
  else
    (.executed false, ⟨s.consecutiveFailures + 1, false, s.openedAt⟩)

/-- The breaker's initial, closed state. -/
def breakerClosed : BreakerState := ⟨0, false, 0⟩

/-- n consecutive failed calls through the breaker, all at time now. -/
def breakerFailures (cfg : BreakerConfig) (now : Nat) : Nat → BreakerState → BreakerState
  | 0, s => s
  | n + 1, s => breakerFailures cfg now n (breakerCall cfg s now false).2

/-- The eight resource kinds for which the formatter can suggest a remedial
get sub-command. -/
def knownResourceKinds : List String :=
  ["conversation", "message", "comment", "contact", "teammate", "tag", "inbox", "channel"]

/-- api.ExitSuccess. -/
def ExitSuccess : Int := 0

/-- api.ExitError. -/
def ExitError : Int := 1

/-- api.ExitUsage. -/
def ExitUsage : Int := 2

/-- api.ExitAuth. -/
def ExitAuth : Int := 3

/-- api.ExitNotFound. -/
def ExitNotFound : Int := 4

/-- api.ExitRateLimit. -/
def ExitRateLimit : Int := 5

/-- The ExitCode() method of api.APIError: the CLI exit code from the status
code alone. -/
def APIError.ExitCode (e : APIError) : Int :=
  if e.StatusCode = 401 ∨ e.StatusCode = 403 then ExitAuth
  else if e.StatusCode = 404 then ExitNotFound
  else if e.StatusCode = 429 then ExitRateLimit
  else ExitError

/-- An api.AuthError wrapping a plain 500 api.APIError: a value on which the
source's dispatch order and the spec's stated dispatch order disagree. -/
def c1CexInput : GoError := .authError (.apiError ⟨500, "boom", "", "", ""⟩)

/-- The inverse of the prefix table on its known kinds. -/
def kindToPfx (k : String) : String :=
  if k = "conversation" then "cnv_"
  else if k = "message" then "msg_"
  else if k = "comment" then "cmt_"
  else if k = "contact" then "ctc_"
  else if k = "teammate" then "tea_"
  else if k = "tag" then "tag_"
  else if k = "inbox" then "inb_"
  else if k = "channel" then "cha_"
  else ""

/-- A string with non-empty character data is not the empty string. -/
theorem ne_empty_data {s : String} (h : s.data ≠ []) : s ≠ "" := by
  intro h0
  exact h (by rw [h0])

/-- Appending to a non-empty string keeps it non-empty. -/
theorem strAppend_ne_empty {a : String} (b : String) (h : a ≠ "") : a ++ b ≠ "" := by
  refine ne_empty_data ?_
  rw [String.data_append]
  intro hc
  exact h (by rw [String.ext_iff, (List.append_eq_nil.mp hc).1])

/-- A suffix of the shape n ++ c of b ++ n ++ c is a contiguous substring. -/
theorem strContains_suffix_chunk (b n c : String) : StrContains (n ++ c) (b ++ n ++ c) :=
  ⟨b.data, [], by simp [String.data_append]⟩

/-- The inverse table undoes the prefix table on known prefixes. -/
theorem kindToPfx_resourceKindOf (p : String) (hp : resourceKindOf p ≠ "") :
    kindToPfx (resourceKindOf p) = p := by
  unfold resourceKindOf at hp ⊢
  split_ifs at hp ⊢ with h1 h2 h3 h4 h5 h6 h7 h8
  · rw [h1]; decide
  · rw [h2]; decide
  · rw [h3]; decide
  · rw [h4]; decide
  · rw [h5]; decide
  · rw [h6]; decide
  · rw [h7]; decide
  · rw [h8]; decide
  · exact absurd rfl hp

/-- The prefix table is injective on known prefixes. -/
theorem resourceKindOf_inj (p q : String) (hp : resourceKindOf p ≠ "")
    (h : resourceKindOf p = resourceKindOf q) : p = q := by
  have hq : resourceKindOf q ≠ "" := h ▸ hp
  rw [← kindToPfx_resourceKindOf p hp, ← kindToPfx_resourceKindOf q hq, h]

/-- A known kind of the prefix table is one of the eight resource kinds. -/
theorem resourceKindOf_mem (p : String) (h : resourceKindOf p ≠ "") :
    resourceKindOf p ∈ knownResourceKinds := by
  unfold resourceKindOf at h ⊢
  split_ifs at h ⊢ <;> first
    | exact absurd rfl h
    | decide

/-- A known resource kind of an ID is one of the eight kinds. -/
theorem getResourceType_mem (id : String) (h : GetResourceType id ≠ "") :
    GetResourceType id ∈ knownResourceKinds :=
  resourceKindOf_mem ( ExtractPrefix id) h

/-- A suggestion exists exactly for the eight known resource kinds. -/
theorem getSuggestion_ne_iff (t id : String) :
    getSuggestionForResource t id ≠ "" ↔ t ∈ knownResourceKinds := by
  unfold getSuggestionForResource
  split_ifs with h1 h2 h3 h4 h5 h6 h7 h8 <;>
    simp_all [knownResourceKinds] <;>
      exact strAppend_ne_empty id (ne_empty_data (by decide))

/-- For a known kind the suggestion is a get sub-command on the offending ID. -/
theorem getSuggestion_contains_get (t id : String) (h : t ∈ knownResourceKinds) :
    StrContains ("get " ++ id) (getSuggestionForResource t id) := by
  have key : ∀ b : String, StrContains ("get " ++ id) ((b ++ "get ") ++ id) :=
    fun b => strContains_suffix_chunk b "get " id
  fin_cases h <;> unfold getSuggestionForResource <;> norm_num
  · rw [show ("frontcli conv get " : String) = "frontcli conv " ++ "get " from by decide]
    exact key "frontcli conv "
  · rw [show ("frontcli messages get " : String) = "frontcli messages " ++ "get " from by decide]
    exact key "frontcli messages "
  · rw [show ("frontcli comments get " : String) = "frontcli comments " ++ "get " from by decide]
    exact key "frontcli comments "
  · rw [show ("frontcli contacts get " : String) = "frontcli contacts " ++ "get " from by decide]
    exact key "frontcli contacts "
  · rw [show ("frontcli teammates get " : String) = "frontcli teammates " ++ "get " from by decide]
    exact key "frontcli teammates "
  · rw [show ("frontcli tags get " : String) = "frontcli tags " ++ "get " from by decide]
    exact key "frontcli tags "
  · rw [show ("frontcli inboxes get " : String) = "frontcli inboxes " ++ "get " from by decide]
    exact key "frontcli inboxes "
  · rw [show ("frontcli channels get " : String) = "frontcli channels " ++ "get " from by decide]
    exact key "frontcli channels "

/-- The wrong-ID-type hint, written out, when the kind is known and differs
from the expected resource. -/
theorem getWrongIDTypeHint_eq (id exp : String)
    (hk : GetResourceType id ≠ "") (hne : GetResourceType id ≠ exp) :
    getWrongIDTypeHint id exp
      = "  '" ++ id ++ "' is a " ++ GetResourceType id ++ " ID, but a " ++ exp
          ++ " ID was expected.\n\n"
        ++ ("  Try: " ++ getSuggestionForResource (GetResourceType id) id ++ "\n") := by
  have hs : getSuggestionForResource (GetResourceType id) id ≠ "" :=
    (getSuggestion_ne_iff _ id).mpr (getResourceType_mem id hk)
  unfold getWrongIDTypeHint
  rw [if_neg (not_or.mpr ⟨hk, hne⟩)]
  rw [if_pos hs]

/-- The wrong-ID-type hint is empty when the kind is unknown or matches. -/
theorem getWrongIDTypeHint_empty (id exp : String)
    (h : GetResourceType id = "" ∨ GetResourceType id = exp) :
    getWrongIDTypeHint id exp = "" := by
  unfold getWrongIDTypeHint
  rw [if_pos h]

/-- A closed-state failed call increments the counter and opens the breaker
when the threshold is reached. -/
theorem breakerCall_closed_failure (cfg : BreakerConfig) (s : BreakerState)
    (now : Nat) (hopen : s.isOpen = false) :
    breakerCall cfg s now false
      = (.executed false,
          if cfg.threshold ≤ s.consecutiveFailures + 1 then
            ⟨s.consecutiveFailures + 1, true, now⟩
          else ⟨s.consecutiveFailures + 1, false, s.openedAt⟩) := by
  unfold breakerCall
  rw [if_neg (by simp [hopen])]
  rw [if_neg (by simp)]
  rw [if_neg (by simp [hopen])]
  split_ifs with h <;> rfl

/-- Consecutive failures from a closed state: below the threshold only the
counter moves; reaching it opens the breaker and stamps the current time. -/
theorem breakerFailures_steps (cfg : BreakerConfig) (now : Nat) :
    ∀ (k : Nat) (s : BreakerState), s.isOpen = false →
      s.consecutiveFailures + k ≤ cfg.threshold →
      breakerFailures cfg now k s
        = if s.consecutiveFailures + k < cfg.threshold ∨ k = 0 then
            ⟨s.consecutiveFailures + k, false, s.openedAt⟩
          else ⟨cfg.threshold, true, now⟩ := by
  intro k
  induction k with
  | zero =>
    intro s hopen _
    rw [if_pos (Or.inr rfl)]
    unfold breakerFailures
    cases s
    simp_all
  | succ n ih =>
    intro s hopen hle
    unfold breakerFailures
    rw [breakerCall_closed_failure cfg s now hopen]
    by_cases hth : cfg.threshold ≤ s.consecutiveFailures + 1
    · rw [if_pos hth]
      have hn : n = 0 := by omega
      have hteq : cfg.threshold = s.consecutiveFailures + 1 := by omega
      subst hn
      unfold breakerFailures
      rw [if_neg (by omega)]
      simp [hteq]
    · rw [if_neg hth]
      rw [ih ⟨s.consecutiveFailures + 1, false, s.openedAt⟩ rfl (by simp; omega)]
      by_cases hlt : s.consecutiveFailures + (n + 1) < cfg.threshold
      · rw [if_pos (by simp; omega)]
        rw [if_pos (by omega)]
        simp
        omega
      · rw [if_neg (by simp; omega)]
        rw [if_neg (by omega)]

/-- C1 (amended): for every non-nil error, Format dispatches on the error's
kind with first match winning, in the order WrongResourceTypeError, then
generic HTTPError by status code, then AuthError, then RateLimitError, then
circuit-open error, then the not-authenticated sentinel, then the fallback
rendering; an error matching an earlier kind is never rendered by a later
branch.  (The claim as stated places the generic HTTPError branch sixth; the
source checks api.APIError second, right after WrongResourceTypeError.) -/
theorem format_dispatch_order_amended (err : GoError) :
    Format (some err) = FormatSourceOrder err := by
  unfold Format FormatSourceOrder
  cases h1 : errAsWrongResourceType err <;>
    cases h2 : errAsAPIError err <;>
      cases h3 : errAsAuthError err <;>
        cases h4 : errAsRateLimit err <;>
          cases h5 : errAsCircuitBreaker err <;>
            cases h6 : errIsNotAuthenticated err <;>
              simp [dispatchFirst, branchWrongResourceType, branchHTTPError,
                branchAuthError, branchRateLimit, branchCircuitOpen,
                branchNotAuthenticated, fallbackFormat, h1, h2, h3, h4, h5, h6]

set_option maxRecDepth 100000 in
/-- C1 counterexample: on an AuthError wrapping a plain 500 APIError, Format
renders the generic HTTPError branch, not the AuthError branch the claim's
dispatch order (HTTPError sixth, after AuthError) would choose. -/
theorem format_dispatch_claim_order_cex :
    Format (some c1CexInput) ≠ FormatClaimOrder c1CexInput
      ∧ Format (some c1CexInput) = "Error: boom (500)\n" := by
  constructor <;> decide

/-- C2: for every HTTPError with status 404 carrying a non-empty requested ID
and a non-empty expected-resource hint, the formatter computes the ID's kind
locally; when that kind is known and differs from the expected resource the
output is the 404 header followed by the wrong-type hint (which names the
actual kind and a get sub-command on the ID) and the generic not-found line is
not appended; when the kind is unknown or matches, the output is the header
followed by the generic doesn't-exist line and the wrong-type hint is empty. -/
theorem formatAPIError_404_crossCheck (e : APIError)
    (h4 : e.StatusCode = 404) (hid : e.RequestedID ≠ "") (hexp : e.ExpectedResource ≠ "") :
    (GetResourceType e.RequestedID ≠ "" ∧ GetResourceType e.RequestedID ≠ e.ExpectedResource →
        formatAPIError e
            = notFound404Header e ++ getWrongIDTypeHint e.RequestedID e.ExpectedResource
          ∧ getWrongIDTypeHint e.RequestedID e.ExpectedResource ≠ ""
          ∧ StrContains (GetResourceType e.RequestedID) (formatAPIError e)
          ∧ StrContains ("get " ++ e.RequestedID) (formatAPIError e))
    ∧ (GetResourceType e.RequestedID = "" ∨ GetResourceType e.RequestedID = e.ExpectedResource →
        formatAPIError e
            = notFound404Header e ++ "  The resource doesn't exist or you don't have access.\n"
          ∧ getWrongIDTypeHint e.RequestedID e.ExpectedResource = "") := by
  constructor
  · rintro ⟨hk, hne⟩
    have hint_eq := getWrongIDTypeHint_eq e.RequestedID e.ExpectedResource hk hne
    have hint_ne : getWrongIDTypeHint e.RequestedID e.ExpectedResource ≠ "" := by
      rw [hint_eq]
      refine strAppend_ne_empty _ ?_
      refine strAppend_ne_empty _ ?_
      refine strAppend_ne_empty _ ?_
      refine strAppend_ne_empty _ ?_
      refine strAppend_ne_empty _ ?_
      refine strAppend_ne_empty _ ?_
      refine strAppend_ne_empty _ ?_
      exact ne_empty_data (by decide)
    have hfmt : formatAPIError e
        = notFound404Header e ++ getWrongIDTypeHint e.RequestedID e.ExpectedResource := by
      unfold formatAPIError
      rw [h4]
      rw [if_neg (by decide), if_neg (by decide), if_pos rfl]
      rw [if_pos ⟨hid, hexp, hint_ne⟩]
    refine ⟨hfmt, hint_ne, ?_, ?_⟩
    · rw [hfmt, hint_eq]
      refine StrContains.extendLeft _ ?_
      refine StrContains.extendRight _ ?_
      refine StrContains.extendRight _ ?_
      refine StrContains.extendRight _ ?_
      refine StrContains.extendRight _ ?_
      exact strContains_append_self _ _
    · rw [hfmt, hint_eq]
      refine StrContains.extendLeft _ ?_
      refine StrContains.extendLeft _ ?_
      refine StrContains.extendRight _ ?_
      exact (getSuggestion_contains_get _ _ (getResourceType_mem _ hk)).extendLeft "  Try: "
  · intro hd
    have hint0 := getWrongIDTypeHint_empty e.RequestedID e.ExpectedResource hd
    refine ⟨?_, hint0⟩
    unfold formatAPIError
    rw [h4]
    rw [if_neg (by decide), if_neg (by decide), if_pos rfl]
    rw [if_neg (fun hc => hc.2.2 hint0)]

set_option maxRecDepth 100000 in
/-- C2 witness: the spec's two 404 cross-check vectors, msg_abc123 against an
expected conversation (hint with a get command on the ID) and cnv_abc123
against the same (generic doesn't-exist text). -/
theorem formatAPIError_404_crossCheck_witness :
    StrContains ("get " ++ "msg_abc123")
      (formatAPIError ⟨404, "not found", "", "msg_abc123", "conversation"⟩)
    ∧ formatAPIError ⟨404, "not found", "", "cnv_abc123", "conversation"⟩
        = notFound404Header ⟨404, "not found", "", "cnv_abc123", "conversation"⟩
          ++ "  The resource doesn't exist or you don't have access.\n" :=
  ⟨((formatAPIError_404_crossCheck ⟨404, "not found", "", "msg_abc123", "conversation"⟩
      (by decide) (by decide) (by decide)).1 ⟨by decide, by decide⟩).2.2.2,
   ((formatAPIError_404_crossCheck ⟨404, "not found", "", "cnv_abc123", "conversation"⟩
      (by decide) (by decide) (by decide)).2 (Or.inr (by decide))).1⟩

set_option maxRecDepth 100000 in
/-- C3: every WrongResourceTypeError's message is exactly the string
quote-id-quote is a actual ID, but a expected ID was expected; in particular
for expected conversation, actual message, id msg_abc123 it is the spec's
exact example string. -/
theorem wrongResourceTypeError_message :
    (∀ e : WrongResourceTypeError,
      e.Error = "'" ++ e.ID ++ "' is a " ++ e.ActualType ++ " ID, but a "
        ++ e.ExpectedType ++ " ID was expected")
    ∧ WrongResourceTypeError.Error ⟨"conversation", "message", "msg_abc123"⟩
        = "'msg_abc123' is a message ID, but a conversation ID was expected" :=
  ⟨fun _ => rfl, by decide⟩

/-- C4: ValidateIDPrefix succeeds whenever the actual prefix matches the
expected one or is unknown or malformed, and returns a WrongResourceTypeError
carrying the offending ID, the expected kind name and the actual kind name
exactly when the actual prefix is well-formed, maps to a known kind, and that
kind differs from the expected one. -/
theorem validateIDPrefix_spec (id pfx : String) :
    (ValidateIDPrefix id pfx = none ↔ GetResourceType id = "" ∨ ExtractPrefix id = pfx)
    ∧ (∀ w, ValidateIDPrefix id pfx = some w →
        w.ID = id ∧ w.ActualType = GetResourceType id
          ∧ w.ExpectedType = resourceKindOf pfx
          ∧ GetResourceType id ≠ "" ∧ w.ActualType ≠ w.ExpectedType)
    ∧ (GetResourceType id ≠ "" ∧ ExtractPrefix id ≠ pfx →
        ValidateIDPrefix id pfx = some ⟨resourceKindOf pfx, GetResourceType id, id⟩) := by
  have hval : ValidateIDPrefix id pfx =
      (if ExtractPrefix id = "" then none
       else if ExtractPrefix id = pfx then none
       else if resourceKindOf ( ExtractPrefix id) = "" then none
       else some ⟨resourceKindOf pfx, resourceKindOf ( ExtractPrefix id), id⟩) := rfl
  have hget : GetResourceType id = resourceKindOf ( ExtractPrefix id) := rfl
  rw [hval, hget]
  by_cases h1 : ExtractPrefix id = ""
  · rw [if_pos h1]
    have hk : resourceKindOf ( ExtractPrefix id) = "" := by rw [h1]; decide
    exact ⟨⟨fun _ => Or.inl hk, fun _ => rfl⟩,
      fun w hw => absurd hw (by simp),
      fun hc => absurd hk hc.1⟩
  · rw [if_neg h1]
    by_cases h2 : ExtractPrefix id = pfx
    · rw [if_pos h2]
      exact ⟨⟨fun _ => Or.inr h2, fun _ => rfl⟩,
        fun w hw => absurd hw (by simp),
        fun hc => absurd h2 hc.2⟩
    · rw [if_neg h2]
      by_cases h3 : resourceKindOf ( ExtractPrefix id) = ""
      · rw [if_pos h3]
        exact ⟨⟨fun _ => Or.inl h3, fun _ => rfl⟩,
          fun w hw => absurd hw (by simp),
          fun hc => absurd h3 hc.1⟩
      · rw [if_neg h3]
        refine ⟨⟨fun hc => absurd hc (by simp),
          fun hc => hc.elim (fun hk => absurd hk h3) (fun hp => absurd hp h2)⟩,
          fun w hw => ?_, fun _ => rfl⟩
        injection hw with hw2
        subst hw2
        exact ⟨rfl, rfl, rfl, h3,
          fun heq => h2 (resourceKindOf_inj ( ExtractPrefix id) pfx h3 heq)⟩

/-- C5: ExtractPrefix returns the leading four-character segment ending in the
separator exactly when the 4th character is the separator and the total length
exceeds the minimum, and the empty string otherwise; on the spec's vectors it
gives cnv_ for cnv_abc123 and empty for ab, cnvabc123, conver_sation and the
empty string. -/
theorem extractPrefix_spec :
    (∀ id : String,
      ( ExtractPrefix id ≠ "" ↔ 4 < id.data.length ∧ id.data.getD 3 ' ' = '_')
      ∧ ( ExtractPrefix id ≠ "" →
            ExtractPrefix id = String.mk (id.data.take 4)
            ∧ ( ExtractPrefix id).data.length = 4
            ∧ ( ExtractPrefix id).data.getLast? = some '_'))
    ∧ ExtractPrefix "cnv_abc123" = "cnv_"
    ∧ ExtractPrefix "ab" = ""
    ∧ ExtractPrefix "cnvabc123" = ""
    ∧ ExtractPrefix "conver_sation" = ""
    ∧ ExtractPrefix "" = "" := by
  refine ⟨fun id => ?_, by decide, by decide, by decide, by decide, by decide⟩
  by_cases h : 4 < id.data.length ∧ id.data.getD 3 ' ' = '_'
  · have hrw : ExtractPrefix id = String.mk (id.data.take 4) := by
      unfold ExtractPrefix
      rw [if_pos h]
    obtain ⟨hl, hsep⟩ := h
    have hlen : (id.data.take 4).length = 4 := by
      rw [List.length_take]; omega
    have hne : ExtractPrefix id ≠ "" := by
      rw [hrw]
      intro h0
      have h1 := congrArg String.length h0
      rw [String.length_mk, hlen] at h1
      rw [String.length_empty] at h1
      exact absurd h1 (by decide)
    refine ⟨⟨fun _ => ⟨hl, hsep⟩, fun _ => hne⟩, fun _ => ⟨hrw, ?_, ?_⟩⟩
    · rw [hrw]
      exact hlen
    · rw [hrw]
      show (id.data.take 4).getLast? = some '_'
      rw [List.getLast?_eq_getElem?]
      rw [List.length_take]
      have hm : min 4 id.data.length = 4 := by omega
      rw [hm]
      rw [List.getElem?_take]
      norm_num
      have hgd : id.data.getD 3 ' ' = (id.data[3]?).getD ' ' := by
        simp [List.getD]
      rw [hgd] at hsep
      obtain ⟨c, hc3⟩ : ∃ c, id.data[3]? = some c := ⟨id.data[3], by simp⟩
      rw [hc3] at hsep ⊢
      simpa using hsep
  · have hrw : ExtractPrefix id = "" := by
      unfold ExtractPrefix
      rw [if_neg h]
    rw [hrw]
    exact ⟨⟨fun hcon => absurd rfl hcon, fun hcon => absurd hcon h⟩,
      fun hcon => absurd rfl hcon⟩

/-- C6: an APIError's CLI exit code is determined solely by its status code:
401 and 403 map to 3, 404 to 4, 429 to 5, everything else to 1; the success
and usage-error constants are 0 and 2. -/
theorem exitCode_mapping :
    (∀ e : APIError,
      e.ExitCode = if e.StatusCode = 401 ∨ e.StatusCode = 403 then 3
        else if e.StatusCode = 404 then 4
        else if e.StatusCode = 429 then 5
        else 1)
    ∧ ExitSuccess = 0 ∧ ExitUsage = 2 :=
  ⟨fun _ => rfl, rfl, rfl⟩

/-- C7: the circuit breaker opens after threshold-many consecutive failed
calls from the fresh closed state; while open and before the cool-down has
elapsed every call is rejected fast with CircuitBreakerError and the state
does not change (no transport attempt); once the cool-down has elapsed the
single trial call executes, a success resetting the failure counter to zero
and closing the breaker, a failure re-opening it and restarting the cool-down
timer from the current time. -/
theorem circuitBreaker_spec (cfg : BreakerConfig) (now : Nat) (hth : 0 < cfg.threshold) :
    breakerFailures cfg now cfg.threshold breakerClosed = ⟨cfg.threshold, true, now⟩
    ∧ (∀ (s : BreakerState) (t : Nat) (ok : Bool), s.isOpen = true →
        t < s.openedAt + cfg.cooldown →
        breakerCall cfg s t ok = (.circuitOpen, s))
    ∧ (∀ (s : BreakerState) (t : Nat), s.isOpen = true →
        s.openedAt + cfg.cooldown ≤ t →
        breakerCall cfg s t true = (.executed true, ⟨0, false, s.openedAt⟩))
    ∧ (∀ (s : BreakerState) (t : Nat), s.isOpen = true →
        s.openedAt + cfg.cooldown ≤ t →
        breakerCall cfg s t false = (.executed false, ⟨s.consecutiveFailures, true, t⟩)) := by
  refine ⟨?_, ?_, ?_, ?_⟩
  · rw [breakerFailures_steps cfg now cfg.threshold breakerClosed rfl (by simp [breakerClosed])]
    rw [if_neg (by simp [breakerClosed]; omega)]
  · intro s t ok hopen hcool
    unfold breakerCall
    rw [if_pos ⟨hopen, hcool⟩]
  · intro s t hopen hcool
    unfold breakerCall
    rw [if_neg (by simp [hopen]; omega)]
    rw [if_pos rfl]
  · intro s t hopen hcool
    unfold breakerCall
    rw [if_neg (by simp [hopen]; omega)]
    rw [if_neg (by simp)]
    rw [if_pos hopen]

/-- C7 witness: with threshold 3 and cool-down 10, three consecutive failures
at time 7 from the fresh state leave the breaker open with openedAt 7. -/
theorem circuitBreaker_spec_witness :
    0 < (⟨3, 10⟩ : BreakerConfig).threshold
    ∧ breakerFailures ⟨3, 10⟩ 7 3 breakerClosed = ⟨3, true, 7⟩ :=
  ⟨by decide, (circuitBreaker_spec ⟨3, 10⟩ 7 (by decide)).1⟩

set_option maxRecDepth 200000 in
/-- C8: the formatted WrongResourceTypeError output carries a Try line with a
get sub-command on the offending ID exactly when the actual kind is one of the
eight known resource kinds, and otherwise no suggestion line is appended; the
spec's example message kind with ID msg_abc123 yields messages get msg_abc123
in the output. -/
theorem formatWrongResourceType_suggestion (e : WrongResourceTypeError) :
    (getSuggestionForResource e.ActualType e.ID ≠ "" ↔ e.ActualType ∈ knownResourceKinds)
    ∧ (e.ActualType ∈ knownResourceKinds →
        formatWrongResourceTypeError e
            = formatWrongResourceTypeErrorBase e
              ++ ("  Try: " ++ getSuggestionForResource e.ActualType e.ID ++ "\n")
          ∧ StrContains "Try: " (formatWrongResourceTypeError e)
          ∧ StrContains ("get " ++ e.ID) (formatWrongResourceTypeError e))
    ∧ (e.ActualType ∉ knownResourceKinds →
        formatWrongResourceTypeError e = formatWrongResourceTypeErrorBase e)
    ∧ StrContains "messages get msg_abc123"
        (formatWrongResourceTypeError ⟨"conversation", "message", "msg_abc123"⟩) := by
  refine ⟨getSuggestion_ne_iff e.ActualType e.ID, fun hmem => ?_, fun hnmem => ?_, by decide⟩
  · have hs : getSuggestionForResource e.ActualType e.ID ≠ "" :=
      (getSuggestion_ne_iff e.ActualType e.ID).mpr hmem
    have heq : formatWrongResourceTypeError e
        = formatWrongResourceTypeErrorBase e
          ++ ("  Try: " ++ getSuggestionForResource e.ActualType e.ID ++ "\n") := by
      unfold formatWrongResourceTypeError
      rw [if_pos hs]
    refine ⟨heq, ?_, ?_⟩
    · rw [heq]
      refine StrContains.extendLeft _ ?_
      refine StrContains.extendRight _ ?_
      rw [show ("  Try: " : String) = "  " ++ "Try: " from by decide]
      exact (strContains_append_self "  " "Try: ").extendRight _
    · rw [heq]
      refine StrContains.extendLeft _ ?_
      refine StrContains.extendRight _ ?_
      exact (getSuggestion_contains_get e.ActualType e.ID hmem).extendLeft "  Try: "
  · have hs : getSuggestionForResource e.ActualType e.ID = "" := by
      by_contra hc
      exact hnmem ((getSuggestion_ne_iff e.ActualType e.ID).mp hc)
    unfold formatWrongResourceTypeError
    rw [if_neg (by rw [hs]; exact fun hc => hc rfl)]
    exact String.append_empty _

/-- C9: Format applied to a nil error returns the empty string. -/
theorem format_nil_empty : Format none = "" := rfl

set_option maxRecDepth 200000 in
/-- C10: the retry-delay line in the formatted RateLimitError output and the
retry-after suffix in its error message are present exactly when RetryAfter is
strictly positive; when RetryAfter is zero or negative both renderings omit
the retry text and the rest is unchanged. -/
theorem rateLimit_retry_iff (e : RateLimitError) :
    (StrContains "Retry after" (formatRateLimitError e) ↔ 0 < e.RetryAfter)
    ∧ (StrContains ", retry after" e.Error ↔ 0 < e.RetryAfter)
    ∧ (0 < e.RetryAfter →
        formatRateLimitError e
          = "Error: Rate limit exceeded\n\n"
            ++ ("  Retry after " ++ toString e.RetryAfter ++ " seconds.\n")
            ++ "  Tip: Use --limit flag to reduce result set size.\n"
        ∧ e.Error
          = "rate limit exceeded, retry after " ++ toString e.RetryAfter ++ " seconds")
    ∧ (¬ 0 < e.RetryAfter →
        formatRateLimitError e
          = "Error: Rate limit exceeded\n\n"
            ++ "  Tip: Use --limit flag to reduce result set size.\n"
        ∧ e.Error = "rate limit exceeded") := by
  by_cases hr : 0 < e.RetryAfter
  · have hfmt : formatRateLimitError e
        = "Error: Rate limit exceeded\n\n"
          ++ ("  Retry after " ++ toString e.RetryAfter ++ " seconds.\n")
          ++ "  Tip: Use --limit flag to reduce result set size.\n" := by
      unfold formatRateLimitError
      rw [if_pos hr]
    have hmsg : e.Error
        = "rate limit exceeded, retry after " ++ toString e.RetryAfter ++ " seconds" := by
      unfold RateLimitError.Error
      rw [if_pos hr]
    have hc1 : StrContains "Retry after" (formatRateLimitError e) := by
      rw [hfmt]
      refine StrContains.extendRight _ ?_
      refine StrContains.extendLeft _ ?_
      refine StrContains.extendRight _ ?_
      refine StrContains.extendRight _ ?_
      rw [show ("  Retry after " : String) = "  " ++ "Retry after" ++ " " from by decide]
      exact (strContains_append_self "  " "Retry after").extendRight " "
    have hc2 : StrContains ", retry after" e.Error := by
      rw [hmsg]
      refine StrContains.extendRight _ ?_
      refine StrContains.extendRight _ ?_
      rw [show ("rate limit exceeded, retry after " : String)
          = "rate limit exceeded" ++ ", retry after" ++ " " from by decide]
      exact (strContains_append_self "rate limit exceeded" ", retry after").extendRight " "
    exact ⟨iff_of_true hc1 hr, iff_of_true hc2 hr,
      fun _ => ⟨hfmt, hmsg⟩, fun hn => absurd hr hn⟩
  · have hfmt : formatRateLimitError e
        = "Error: Rate limit exceeded\n\n"
          ++ "  Tip: Use --limit flag to reduce result set size.\n" := by
      unfold formatRateLimitError
      rw [if_neg hr]
      rw [String.append_empty]
    have hmsg : e.Error = "rate limit exceeded" := by
      unfold RateLimitError.Error
      rw [if_neg hr]
    have hc1 : ¬ StrContains "Retry after" (formatRateLimitError e) := by
      rw [hfmt]
      decide
    have hc2 : ¬ StrContains ", retry after" e.Error := by
      rw [hmsg]
      decide
    exact ⟨iff_of_false hc1 hr, iff_of_false hc2 hr,
      fun hp => absurd hp hr, fun _ => ⟨hfmt, hmsg⟩⟩

end Frontcli
